import Mathlib

/-!
Verification development for the dubflow focus-companion core: a shallow
embedding of the session controller (session-manager.js), the distraction
fusion engine and alert orchestrator (distraction-manager.js), and the
focus-score aggregation (session-history.js), with theorems settling the
specified properties against the embedded code.
-/

namespace Dubflow

/-- The two attention signal sources fused by the engine. -/
inductive Source
  | window_tracker
  | eye_tracker
deriving DecidableEq, Repr

/-- Focus state recorded in a focus event. -/
inductive FocusState
  | focused
  | distracted
deriving DecidableEq, Repr

/-- One entry of focusStateHistory (session-manager.js). The source field is
the string the code stores ("session_start" for the initial event). -/
structure FocusEvent where
  timestamp : Int
  elapsedTime : Int
  state : FocusState
  source : String
deriving DecidableEq, Repr

/-- JavaScript truthiness of a nullable numeric timestamp: null and 0 are
falsy, any other number is truthy. -/
def jsTruthyTime : Option Int → Bool
  | none => false
  | some t => t != 0

/-- The session manager state record (session-manager.js constructor), plus
whether the 1-second tick interval is live. -/
structure SMState where
  isActive : Bool
  isPaused : Bool
  taskName : String
  duration : Int
  startTime : Option Int
  pausedAt : Option Int
  totalPausedTime : Int
  focusStateHistory : List FocusEvent
  timerIntervalActive : Bool
deriving DecidableEq, Repr

/-- The constructor state of SessionManager. -/
def SMState.initial : SMState where
  isActive := false
  isPaused := false
  taskName := ""
  duration := 0
  startTime := none
  pausedAt := none
  totalPausedTime := 0
  focusStateHistory := []
  timerIntervalActive := false

/-- The snapshot getState returns, with the computed elapsedTime and
remainingTime. -/
structure SessionSnapshot where
  isActive : Bool
  isPaused : Bool
  taskName : String
  duration : Int
  startTime : Option Int
  elapsedTime : Int
  remainingTime : Int
  focusStateHistory : List FocusEvent
deriving DecidableEq, Repr

/-- getState (session-manager.js): elapsed time excludes accumulated paused
time and, while paused, the current in-progress pause; Math.floor of the
millisecond difference over 1000 is Int.fdiv. -/
def SMState.getState (s : SMState) (now : Int) : SessionSnapshot :=
  let active := s.isActive && jsTruthyTime s.startTime
  let elapsedTime : Int :=
    if active then
      let st := s.startTime.getD 0
      let totalElapsed := now - st
      let pausedTime := s.totalPausedTime +
        (if jsTruthyTime s.pausedAt then now - s.pausedAt.getD 0 else 0)
      Int.fdiv (totalElapsed - pausedTime) 1000
    else 0
  let remainingTime : Int :=
    if active then max 0 (s.duration - elapsedTime) else s.duration
  { isActive := s.isActive
    isPaused := s.isPaused
    taskName := s.taskName
    duration := s.duration
    startTime := s.startTime
    elapsedTime := elapsedTime
    remainingTime := remainingTime
    focusStateHistory := s.focusStateHistory }

/-- start (session-manager.js): replaces the whole state with a fresh active
session, seeds the history with one session_start event at elapsed 0, and
starts the 1-second tick interval. The code performs no validation of the
task name. -/
def SMState.start (_s : SMState) (taskName : String) (durationMinutes : Int)
    (now : Int) : SMState where
  isActive := true
  isPaused := false
  taskName := taskName
  duration := durationMinutes * 60
  startTime := some now
  pausedAt := none
  totalPausedTime := 0
  focusStateHistory :=
    [{ timestamp := now, elapsedTime := 0, state := FocusState.focused,
       source := "session_start" }]
  timerIntervalActive := true

/-- pause (session-manager.js): no-op unless active and not yet paused;
records pausedAt. -/
def SMState.pause (s : SMState) (now : Int) : SMState :=
  if !s.isActive || s.isPaused then s
  else { s with isPaused := true, pausedAt := some now }

/-- resume (session-manager.js): no-op unless active and paused; accumulates
the paused interval (guarded by the truthiness of pausedAt) and clears
pausedAt. -/
def SMState.resume (s : SMState) (now : Int) : SMState :=
  if !s.isActive || !s.isPaused then s
  else
    let tpt :=
      if jsTruthyTime s.pausedAt then s.totalPausedTime + (now - s.pausedAt.getD 0)
      else s.totalPausedTime
    { s with isPaused := false, pausedAt := none, totalPausedTime := tpt }

/-- The pairwise focused-interval sum inside calculateFocusScore
(session-history.js): each focused event contributes the clamped distance to
the next event's elapsedTime, the last event up to total elapsed time. -/
def focusedTimeCalc : List FocusEvent → Int → Int
  | [], _ => 0
  | [ev], elapsedTime => if ev.state = FocusState.focused then max 0 (elapsedTime - ev.elapsedTime) else 0
  | ev :: next :: rest, elapsedTime =>
      (if ev.state = FocusState.focused then max 0 (next.elapsedTime - ev.elapsedTime) else 0) +
      focusedTimeCalc (next :: rest) elapsedTime

/-- calculateFocusScore (session-history.js): 100 for an empty history or
zero elapsed time, otherwise Math.round of the focused fraction as a
percentage. -/
def calculateFocusScore (focusStateHistory : List FocusEvent) (elapsedTime : Int) : Int :=
  if focusStateHistory = [] ∨ elapsedTime = 0 then 100
  else round (((focusedTimeCalc focusStateHistory elapsedTime : ℚ) / (elapsedTime : ℚ)) * 100)

/-- The interval end paired with each event under the spec reading: the next
event's elapsedSeconds, or session end for the last event. -/
def specIntervalEnds (focusStateHistory : List FocusEvent) (sessionEnd : Int) : List Int :=
  (focusStateHistory.drop 1).map FocusEvent.elapsedTime ++ [sessionEnd]

/-- The focused-interval sum exactly as the spec sentence words it: sum over
events in focused state of the duration from the event's elapsedSeconds to
its interval end. -/
def specFocusedTime (focusStateHistory : List FocusEvent) (sessionEnd : Int) : Int :=
  ((focusStateHistory.zip (specIntervalEnds focusStateHistory sessionEnd)).map
    (fun p => if p.1.state = FocusState.focused then max 0 (p.2 - p.1.elapsedTime) else 0)).sum

/-- The spec formula for the focus score: focused time divided by total
elapsed seconds, as a rounded percentage. -/
def specFocusScore (focusStateHistory : List FocusEvent) (elapsedTime : Int) : Int :=
  round (((specFocusedTime focusStateHistory elapsedTime : ℚ) * 100) / (elapsedTime : ℚ))

/-- Active-window information as the window tracker supplies it. -/
structure WindowInfo where
  appName : String
  windowTitle : String
  url : Option String
  isProductive : Bool
deriving DecidableEq, Repr

/-- The distraction manager state (distraction-manager.js constructor):
the two raw distraction flags, the pending-distraction timer start, whether
the periodic check interval is live, the most recent window info, the last
trigger source, and the two configuration fields. -/
structure DMState where
  isWindowDistracted : Bool
  isEyeDistracted : Bool
  distractionStartTime : Option Int
  checkIntervalActive : Bool
  currentWindowInfo : Option WindowInfo
  lastTriggerSource : Option Source
  DISTRACTION_THRESHOLD : Int
  CHECK_INTERVAL : Int
deriving DecidableEq, Repr

/-- The constructor state of DistractionManager: threshold 2500 ms, check
interval 500 ms. -/
def DMState.initial : DMState where
  isWindowDistracted := false
  isEyeDistracted := false
  distractionStartTime := none
  checkIntervalActive := false
  currentWindowInfo := none
  lastTriggerSource := none
  DISTRACTION_THRESHOLD := 2500
  CHECK_INTERVAL := 500

/-- The fused OR-distraction the engine evaluates throughout. -/
def DMState.fusedDistracted (d : DMState) : Bool :=
  d.isWindowDistracted || d.isEyeDistracted

/-- Combined main-process state: the distraction manager and the session
manager it reads. -/
structure AppState where
  dm : DMState
  sm : SMState
deriving DecidableEq, Repr

/-- Scene-analysis label from the external vision collaborator. -/
structure RekognitionLabel where
  name : String
deriving DecidableEq, Repr

/-- Flagged distraction object from the external vision collaborator. -/
structure DistractionObject where
  object : String
deriving DecidableEq, Repr

/-- Scene analysis payload: detected labels and distraction objects. -/
structure SceneAnalysis where
  labels : List RekognitionLabel
  distraction_objects : List DistractionObject
deriving DecidableEq, Repr

/-- Modelled from the spec: the scene-context payload yielded by the
orchestrator's shared slot. The transport that WRITES the slot
(pythonIPC.globalBedrockString) is code of this repository missing from
src/ — only its reader and clearer in distraction-manager.js are present,
so as wired the slot stays empty, the bounded wait always times out, and
every run reaches the pipeline with the payload absent (see
pipeline_without_scene_always_broadcasts). The spec has the slot yield a
scene-context payload inspected "for a flagged-distraction object (e.g. a
handheld device) among detected labels/objects", matching the documented
contracts in the source itself: waitForRekognitionData returns
"Object or null" and checkForPhone takes an Object reading
scene_analysis.labels and scene_analysis.distraction_objects. -/
structure RekognitionData where
  scene_analysis : Option SceneAnalysis
deriving DecidableEq, Repr

/-- Session portion of the assembled alert context. -/
structure SessionContext where
  taskName : String
  timeElapsed : Int
  isActive : Bool
deriving DecidableEq, Repr

/-- Window portion of the assembled alert context. -/
structure WindowContext where
  appName : String
  windowTitle : String
  url : Option String
  isProductive : Bool
deriving DecidableEq, Repr

/-- Trigger portion of the assembled alert context. -/
structure TriggerContext where
  source : Option Source
  windowDistracted : Bool
  eyeDistracted : Bool
deriving DecidableEq, Repr

/-- The context object gatherContext assembles. -/
structure AlertContext where
  session : SessionContext
  window : WindowContext
  trigger : TriggerContext
  rekognition : Option RekognitionData
deriving DecidableEq, Repr

/-- The alert package handleDistractionThreshold broadcasts. -/
structure AlertPackage where
  message : String
  audioData : Option String
  triggerSource : Option Source
  hasPhone : Bool
  timestamp : Int
  context : AlertContext
deriving DecidableEq, Repr

/-- Outward-visible effects of the engine and orchestrator: refocus
broadcasts, the start of the alert pipeline, the alert broadcast, the push
notification, the optional log write, the distraction-occurred emission, and
the top-level catch of a pipeline exception. -/
inductive OutEvent
  | refocusBroadcast (timestamp : Int)
  | pipelineInvoked (timestamp : Int)
  | alertBroadcast (pkg : AlertPackage)
  | pushSent (message : String)
  | alertLogged (pkg : AlertPackage)
  | distractionEmitted (pkg : AlertPackage)
  | pipelineError
deriving DecidableEq, Repr

/-- resetTimer (distraction-manager.js): broadcasts a refocus when a timer
was running, then clears the timer start, the trigger source and the check
interval. -/
def DMState.resetTimer (d : DMState) (now : Int) : DMState × List OutEvent :=
  let outs := if jsTruthyTime d.distractionStartTime then [OutEvent.refocusBroadcast now] else []
  ({ d with distractionStartTime := none, lastTriggerSource := none,
            checkIntervalActive := false }, outs)

/-- handleImmediateRefocus (distraction-manager.js): stops the timer and the
check interval, clears BOTH distraction flags and the trigger source, and
broadcasts a refocus. -/
def DMState.handleImmediateRefocus (d : DMState) (_source : Source) (now : Int) :
    DMState × List OutEvent :=
  ({ d with distractionStartTime := none, checkIntervalActive := false,
            isWindowDistracted := false, isEyeDistracted := false,
            lastTriggerSource := none },
   [OutEvent.refocusBroadcast now])

/-- checkDistractionState (distraction-manager.js): with no active session,
resets the timer; otherwise starts the timer when the fused state (the
isDistracted local of the source) turns distracted with no timer running,
and hard-resets (plus an extra refocus broadcast) when the fused state is
focused with a timer running. -/
def checkDistractionState (a : AppState) (now : Int) : AppState × List OutEvent :=
  if !a.sm.isActive then
    ({ a with dm := (a.dm.resetTimer now).1 }, (a.dm.resetTimer now).2)
  else if a.dm.fusedDistracted && !(jsTruthyTime a.dm.distractionStartTime) then
    ({ a with dm := { a.dm with distractionStartTime := some now,
                                checkIntervalActive := true } }, [])
  else if !a.dm.fusedDistracted && jsTruthyTime a.dm.distractionStartTime then
    ({ a with dm := (a.dm.resetTimer now).1 },
     (a.dm.resetTimer now).2 ++ [OutEvent.refocusBroadcast now])
  else (a, [])

/-- The string checkThreshold returns to the interval closure. -/
inductive CheckResult
  | exitThis
  | handlingDistraction
  | continuing
deriving DecidableEq, Repr

/-- checkThreshold (distraction-manager.js): exits when no timer is running;
safety-exits (nulling only the timer start) when the user is no longer
distracted; on reaching the threshold invokes handleDistractionThreshold,
whose synchronous prefix resets the timer (broadcasting a refocus, since the
start time is still set). -/
def checkThreshold (a : AppState) (now : Int) : AppState × List OutEvent × CheckResult :=
  if !(jsTruthyTime a.dm.distractionStartTime) then (a, [], CheckResult.exitThis)
  else if !a.dm.fusedDistracted then
    ({ a with dm := { a.dm with distractionStartTime := none } }, [], CheckResult.exitThis)
  else if a.dm.DISTRACTION_THRESHOLD ≤ now - a.dm.distractionStartTime.getD 0 then
    ({ a with dm := (a.dm.resetTimer now).1 },
     OutEvent.pipelineInvoked now :: (a.dm.resetTimer now).2,
     CheckResult.handlingDistraction)
  else (a, [], CheckResult.continuing)

/-- One firing of the interval started by startTimer (distraction-manager.js):
the closure clears the interval only when checkThreshold() returns
"exitThis" (the second comparison in the source compares the function itself
against "handlingDistraction" and is always false; in the threshold branch
the interval has already been cleared by resetTimer). -/
def tickCheck (a : AppState) (now : Int) : AppState × List OutEvent :=
  if !a.dm.checkIntervalActive then (a, [])
  else if (checkThreshold a now).2.2 = CheckResult.exitThis then
    ({ (checkThreshold a now).1 with
        dm := { (checkThreshold a now).1.dm with checkIntervalActive := false } },
     (checkThreshold a now).2.1)
  else ((checkThreshold a now).1, (checkThreshold a now).2.1)

/-- updateWindowState (distraction-manager.js): ignores a null windowInfo;
otherwise records it, recomputes the window flag, handles an immediate
refocus on a distracted-to-productive flip, else records the trigger source
while distracted, and finally runs checkDistractionState. -/
def updateWindowState (a : AppState) (windowInfo : Option WindowInfo) (now : Int) :
    AppState × List OutEvent :=
  match windowInfo with
  | none => (a, [])
  | some w =>
    let dm0 := { a.dm with currentWindowInfo := some w }
    let wasWindowDistracted := dm0.isWindowDistracted
    let dm1 := { dm0 with isWindowDistracted := !w.isProductive }
    let r1 : DMState × List OutEvent :=
      if wasWindowDistracted && !dm1.isWindowDistracted then
        dm1.handleImmediateRefocus Source.window_tracker now
      else if dm1.isWindowDistracted then
        ({ dm1 with lastTriggerSource := some Source.window_tracker }, [])
      else (dm1, [])
    let r2 := checkDistractionState { a with dm := r1.1 } now
    (r2.1, r1.2 ++ r2.2)

/-- updateEyeState (distraction-manager.js): recomputes the eye flag, handles
an immediate refocus on a distracted-to-focused flip, else records the
trigger source while distracted, and finally runs checkDistractionState. -/
def updateEyeState (a : AppState) (isFocused : Bool) (now : Int) :
    AppState × List OutEvent :=
  let wasEyeDistracted := a.dm.isEyeDistracted
  let dm1 := { a.dm with isEyeDistracted := !isFocused }
  let r1 : DMState × List OutEvent :=
    if wasEyeDistracted && !dm1.isEyeDistracted then
      dm1.handleImmediateRefocus Source.eye_tracker now
    else if dm1.isEyeDistracted then
      ({ dm1 with lastTriggerSource := some Source.eye_tracker }, [])
    else (dm1, [])
  let r2 := checkDistractionState { a with dm := r1.1 } now
  (r2.1, r1.2 ++ r2.2)

/-- emergencyStop (distraction-manager.js): unconditionally clears the timer,
the interval, both flags, the trigger source and the cached window info, and
broadcasts a refocus; the session manager calls it on pause. -/
def DMState.emergencyStop (d : DMState) (now : Int) : DMState × List OutEvent :=
  ({ d with distractionStartTime := none, checkIntervalActive := false,
            isWindowDistracted := false, isEyeDistracted := false,
            lastTriggerSource := none, currentWindowInfo := none },
   [OutEvent.refocusBroadcast now])

/-- The events the fusion engine processes: the two signal updates, one
firing of the periodic check interval, and an emergency stop. -/
inductive Ev
  | windowUpdate (windowInfo : Option WindowInfo) (now : Int)
  | eyeUpdate (isFocused : Bool) (now : Int)
  | tick (now : Int)
  | emergency (now : Int)
deriving DecidableEq, Repr

/-- The wall-clock time an event carries. -/
def Ev.time : Ev → Int
  | .windowUpdate _ now => now
  | .eyeUpdate _ now => now
  | .tick now => now
  | .emergency now => now

/-- One step of the engine: dispatch an event to its entry point. -/
def step (a : AppState) : Ev → AppState × List OutEvent
  | .windowUpdate wi now => updateWindowState a wi now
  | .eyeUpdate f now => updateEyeState a f now
  | .tick now => tickCheck a now
  | .emergency now =>
      let r := a.dm.emergencyStop now
      ({ a with dm := r.1 }, r.2)

/-- Whether an output list contains a pipelineInvoked marker. -/
def invokedIn (outs : List OutEvent) : Bool :=
  outs.any fun o => match o with | OutEvent.pipelineInvoked _ => true | _ => false

/-- Whether an output list contains a refocus broadcast. -/
def refocusIn (outs : List OutEvent) : Bool :=
  outs.any fun o => match o with | OutEvent.refocusBroadcast _ => true | _ => false

/-- The alert packages broadcast in an output list. -/
def broadcastPackages (outs : List OutEvent) : List AlertPackage :=
  outs.filterMap fun o => match o with | OutEvent.alertBroadcast p => some p | _ => none

/-- Whether the first character list starts the second. -/
def charListStarts : List Char → List Char → Bool
  | [], _ => true
  | _ :: _, [] => false
  | c :: cs, d :: ds => c == d && charListStarts cs ds

/-- Whether the pattern occurs inside the character list. -/
def charListHas (pat : List Char) : List Char → Bool
  | [] => pat.isEmpty
  | d :: ds => charListStarts pat (d :: ds) || charListHas pat ds

/-- JavaScript String.includes as checkForPhone uses it: the pattern occurs
in the text. -/
def strContains (s pat : String) : Bool :=
  charListHas pat.toList s.toList

/-- JavaScript toLowerCase on the character list of a string. -/
def jsToLower (s : String) : String :=
  String.mk (s.toList.map Char.toLower)

/-- checkForPhone (distraction-manager.js): a truthy label name containing
"phone" (lowercased) among the scene labels, or a truthy object string
containing "phone" among the distraction objects. -/
def checkForPhone : Option RekognitionData → Bool
  | none => false
  | some r =>
    match r.scene_analysis with
    | none => false
    | some sa =>
      let hasPhoneInLabels :=
        sa.labels.any fun l => l.name != "" && strContains (jsToLower l.name) "phone"
      let hasPhoneInObjects :=
        sa.distraction_objects.any fun o => o.object != "" && strContains (jsToLower o.object) "phone"
      hasPhoneInLabels || hasPhoneInObjects

/-- JavaScript string-or-fallback: an empty string is falsy. -/
def jsOrString (s fallbackVal : String) : String :=
  if s = "" then fallbackVal else s

/-- gatherContext (distraction-manager.js): merge the session snapshot,
cached window info, trigger info (source and both raw flags) and the scene
payload. Elapsed minutes are Math.floor of the raw time since startTime over
1000 then over 60. -/
def gatherContext (a : AppState) (rekognitionData : Option RekognitionData)
    (now : Int) : AlertContext :=
  let sessionState := a.sm.getState now
  let timeInSession : Int :=
    if jsTruthyTime sessionState.startTime then
      Int.fdiv (now - sessionState.startTime.getD 0) 60000
    else 0
  { session :=
      { taskName := jsOrString sessionState.taskName "Unknown task"
        timeElapsed := timeInSession
        isActive := sessionState.isActive }
    window :=
      match a.dm.currentWindowInfo with
      | some w =>
          { appName := jsOrString w.appName "Unknown"
            windowTitle := w.windowTitle
            url := match w.url with
                   | some u => if u = "" then none else some u
                   | none => none
            isProductive := w.isProductive }
      | none =>
          { appName := "Unknown", windowTitle := "", url := none, isProductive := false }
    trigger :=
      { source := a.dm.lastTriggerSource
        windowDistracted := a.dm.isWindowDistracted
        eyeDistracted := a.dm.isEyeDistracted }
    rekognition := rekognitionData }

/-- The result generateSpeechFromText (elevenlabs-service.js) returns: a
success flag and the audio payload; the service catches its own errors and
never throws. -/
structure SpeechResult where
  success : Bool
  audioData : String
deriving DecidableEq, Repr

/-- Outcomes of the external collaborators for one run of the alert
pipeline: the scene payload the bounded wait yields (none on timeout;
rekognitionData is the spec-modelled slot payload of RekognitionData, and
none is the only value reachable as wired in src/, where the slot has no
writer), the message the Bedrock service returns (it substitutes its
fallback internally and never throws), the ElevenLabs speech result (never
throws), whether a Pushover collaborator is configured and whether its
sendNotification call succeeds, whether an event logger is attached, and
the wall-clock time. -/
structure PipelineEnv where
  rekognitionData : Option RekognitionData
  bedrockMessage : String
  speechResult : SpeechResult
  pushoverConfigured : Bool
  pushoverOk : Bool
  loggerAttached : Bool
  now : Int
deriving DecidableEq, Repr

/-- handleDistractionThreshold (distraction-manager.js): resets the timer
first (which nulls lastTriggerSource and broadcasts a refocus, since the
start time is still set at invocation), gathers context, generates message
and audio, conditionally sends the push notification — a failure there is
uncaught locally, so it reaches the top-level catch and ends the episode
with no broadcast — otherwise broadcasts the alert package, optionally logs
it, emits distraction-occurred, and finally sets DISTRACTION_THRESHOLD to
7000. The push step and the error branch are reachable only when the
spec-modelled slot payload flags a phone; as wired in src/ the slot is
never written, the payload is always absent, and every run takes the
broadcasting path. -/
def handleDistractionThreshold (a : AppState) (env : PipelineEnv) :
    AppState × List OutEvent :=
  let r := a.dm.resetTimer env.now
  let a1 : AppState := { a with dm := r.1 }
  let rekognitionData := env.rekognitionData
  let context := gatherContext a1 rekognitionData env.now
  let dubsMessage := env.bedrockMessage
  let audioResult := env.speechResult
  let hasPhone := checkForPhone rekognitionData
  if hasPhone && env.pushoverConfigured && !env.pushoverOk then
    (a1, r.2 ++ [OutEvent.pipelineError])
  else
    let pushOuts :=
      if hasPhone && env.pushoverConfigured then [OutEvent.pushSent dubsMessage] else []
    let alertPackage : AlertPackage :=
      { message := dubsMessage
        audioData := if audioResult.success then some audioResult.audioData else none
        triggerSource := a1.dm.lastTriggerSource
        hasPhone := hasPhone
        timestamp := env.now
        context := context }
    let logOuts := if env.loggerAttached then [OutEvent.alertLogged alertPackage] else []
    ({ a1 with dm := { a1.dm with DISTRACTION_THRESHOLD := 7000 } },
     r.2 ++ pushOuts ++ [OutEvent.alertBroadcast alertPackage] ++ logOuts ++
       [OutEvent.distractionEmitted alertPackage])

/-- A session started at t=1000 ms with a 25-minute plan. -/
def demoSM : SMState := SMState.initial.start "write report" 25 1000

/-- An engine state mid-episode: the eye signal flipped to distracting at
t=1000 ms, the pending timer and check interval are armed. -/
def demoDM : DMState :=
  { DMState.initial with
      isEyeDistracted := true
      distractionStartTime := some 1000
      checkIntervalActive := true
      lastTriggerSource := some Source.eye_tracker }

/-- Combined demo state: active session, pending eye-triggered episode. -/
def demoApp : AppState := { dm := demoDM, sm := demoSM }

/-- Combined state with a fresh engine and an active session. -/
def freshApp : AppState := { dm := DMState.initial, sm := demoSM }

/-- Collaborator outcomes for a fully successful pipeline run with no scene
payload (the bounded wait timed out). -/
def demoEnvOk : PipelineEnv where
  rekognitionData := none
  bedrockMessage := "Back to work! The squirrels can wait!"
  speechResult := { success := true, audioData := "QUJD" }
  pushoverConfigured := true
  pushoverOk := true
  loggerAttached := false
  now := 4000

/-- A scene payload whose labels flag a phone. -/
def phoneScene : RekognitionData :=
  { scene_analysis := some { labels := [{ name := "Phone" }], distraction_objects := [] } }

/-- Collaborator outcomes where the scene flags a phone and the push
notification call fails. -/
def demoEnvPushFail : PipelineEnv :=
  { demoEnvOk with rekognitionData := some phoneScene, pushoverOk := false }

/-- A throwaway package for headD. -/
def fallbackPkg : AlertPackage where
  message := ""
  audioData := none
  triggerSource := none
  hasPhone := false
  timestamp := 0
  context :=
    { session := { taskName := "", timeElapsed := 0, isActive := false }
      window := { appName := "", windowTitle := "", url := none, isProductive := false }
      trigger := { source := none, windowDistracted := false, eyeDistracted := false }
      rekognition := none }

/-- The package the successful demo pipeline run broadcasts. -/
def demoPkg : AlertPackage :=
  (broadcastPackages (handleDistractionThreshold demoApp demoEnvOk).2).headD fallbackPkg

/-- The focus-state history of the spec's focus-score example. -/
def exampleHistory : List FocusEvent :=
  [{ timestamp := 0, elapsedTime := 0, state := FocusState.focused, source := "session_start" },
   { timestamp := 0, elapsedTime := 10, state := FocusState.distracted, source := "eye_tracker" },
   { timestamp := 0, elapsedTime := 15, state := FocusState.focused, source := "refocus" }]

lemma specFocusedTime_nil (e : Int) : specFocusedTime [] e = 0 := by
  simp [specFocusedTime, specIntervalEnds]

lemma specFocusedTime_single (a : FocusEvent) (e : Int) :
    specFocusedTime [a] e =
      if a.state = FocusState.focused then max 0 (e - a.elapsedTime) else 0 := by
  simp [specFocusedTime, specIntervalEnds]

lemma specFocusedTime_cons2 (a b : FocusEvent) (t : List FocusEvent) (e : Int) :
    specFocusedTime (a :: b :: t) e =
      (if a.state = FocusState.focused then max 0 (b.elapsedTime - a.elapsedTime) else 0) +
      specFocusedTime (b :: t) e := by
  simp [specFocusedTime, specIntervalEnds]

/-- The code's pairwise focused-time accumulation computes exactly the
spec-worded interval sum. -/
lemma focusedTimeCalc_eq_spec (l : List FocusEvent) (e : Int) :
    focusedTimeCalc l e = specFocusedTime l e := by
  induction l with
  | nil => simp [focusedTimeCalc, specFocusedTime_nil]
  | cons a t ih =>
    cases t with
    | nil => simp [focusedTimeCalc, specFocusedTime_single]
    | cons b t2 =>
      simp only [focusedTimeCalc]
      rw [specFocusedTime_cons2, ih]

/-- C8 counterexample: on the empty focus-event history with total elapsed
20 s, calculateFocusScore returns 100 while the spec formula (an empty sum of
focused intervals over 20 s, rounded) gives 0, so the claimed equality fails
there. -/
theorem focusScore_empty_history_cex :
    calculateFocusScore [] 20 = 100 ∧ specFocusScore [] 20 = 0 := by
  constructor
  · norm_num [calculateFocusScore]
  · have h : specFocusedTime [] 20 = 0 := by decide
    unfold specFocusScore
    rw [h, round_eq, Int.floor_eq_iff]
    constructor <;> norm_num

/-- C8 (amended): for every NONEMPTY focus-event history and NONZERO total
elapsed time the computed focus score equals the spec formula (the sum of
focused-state interval durations, from each focused event's elapsedSeconds
to the next event's or to session end, divided by total elapsed seconds, as
a rounded percentage); the spec's example history yields 75 on both sides.
An empty history (or zero elapsed time) instead short-circuits to 100. -/
theorem focusScore_matches_spec_on_nonempty :
    (∀ (focusStateHistory : List FocusEvent) (elapsedTime : Int),
       focusStateHistory ≠ [] → elapsedTime ≠ 0 →
       calculateFocusScore focusStateHistory elapsedTime =
         specFocusScore focusStateHistory elapsedTime) ∧
    calculateFocusScore exampleHistory 20 = 75 ∧
    specFocusScore exampleHistory 20 = 75 := by
  refine ⟨?_, ?_, ?_⟩
  · intro l e hl he
    unfold calculateFocusScore specFocusScore
    rw [if_neg (by simp [hl, he]), focusedTimeCalc_eq_spec, div_mul_eq_mul_div]
  · have h : focusedTimeCalc exampleHistory 20 = 15 := by decide
    unfold calculateFocusScore
    rw [if_neg (by simp [exampleHistory]), h, round_eq, Int.floor_eq_iff]
    constructor <;> norm_num
  · have h : specFocusedTime exampleHistory 20 = 15 := by decide
    unfold specFocusScore
    rw [h, round_eq, Int.floor_eq_iff]
    constructor <;> norm_num

/-- C7 counterexample: start with an empty taskName on the constructor state
is not a no-op: the resulting state is active, its tick timer is running,
its taskName is the empty string, and the state has changed. -/
theorem start_empty_taskName_not_noop_cex :
    (SMState.initial.start "" 25 1000).isActive = true ∧
    (SMState.initial.start "" 25 1000).timerIntervalActive = true ∧
    (SMState.initial.start "" 25 1000).taskName = "" ∧
    SMState.initial.start "" 25 1000 ≠ SMState.initial := by
  refine ⟨rfl, rfl, rfl, ?_⟩
  decide

/-- C7 (amended): start performs no task-name validation at all: for every
prior state, task name (the empty string included), duration and clock it
activates a fresh session carrying that task name, starts the tick timer,
and seeds the history with the single session_start event. -/
theorem start_accepts_empty_taskName :
    ∀ (s : SMState) (taskName : String) (durationMinutes now : Int),
      (s.start taskName durationMinutes now).isActive = true ∧
      (s.start taskName durationMinutes now).taskName = taskName ∧
      (s.start taskName durationMinutes now).timerIntervalActive = true ∧
      (s.start taskName durationMinutes now).focusStateHistory =
        [{ timestamp := now, elapsedTime := 0, state := FocusState.focused,
           source := "session_start" }] :=
  fun _ _ _ _ => ⟨rfl, rfl, rfl, rfl⟩

/-- C3: for every active session state (under the reachable-state
invariants: a nonzero startTime, and pausedAt set to a nonzero timestamp
exactly while paused) and every clock value, getState computes elapsedTime
as the floor of (now - startTime - totalPausedTime - (isPaused ? now -
pausedAt : 0)) / 1000 and remainingTime as max 0 (duration - elapsedTime);
consequently elapsedTime immediately after a resume equals elapsedTime
immediately before the matching pause, for pauses of any length, hence for
any sequence of pause/resume calls. -/
theorem elapsed_formula_and_pause_resume_roundtrip :
    (∀ (s : SMState) (now st : Int),
       s.isActive = true → s.startTime = some st → st ≠ 0 →
       (s.isPaused = false → s.pausedAt = none) →
       (s.isPaused = true → ∃ p, s.pausedAt = some p ∧ p ≠ 0) →
       (s.getState now).elapsedTime =
         Int.fdiv (now - st - s.totalPausedTime -
           (if s.isPaused = true then now - s.pausedAt.getD 0 else 0)) 1000 ∧
       (s.getState now).remainingTime =
         max 0 (s.duration - (s.getState now).elapsedTime)) ∧
    (∀ (s : SMState) (n1 n2 st : Int),
       s.isActive = true → s.isPaused = false → s.startTime = some st → st ≠ 0 →
       s.pausedAt = none → n1 ≠ 0 →
       (((s.pause n1).resume n2).getState n2).elapsedTime =
         (s.getState n1).elapsedTime) := by
  constructor
  · intro s now st hA hS hst hnotp hp
    have htr : jsTruthyTime s.startTime = true := by
      rw [hS]; simp [jsTruthyTime, hst]
    refine ⟨?_, ?_⟩
    · cases hP : s.isPaused with
      | false =>
        have hpa : s.pausedAt = none := hnotp hP
        simp only [SMState.getState, hA, htr, Bool.and_self, if_true, hS, hpa,
          jsTruthyTime, Bool.true_and, hP, Bool.false_eq_true, if_false,
          bne_iff_ne, ne_eq, hst, not_false_eq_true, Option.getD_some]
        congr 1
        ring
      | true =>
        obtain ⟨p, hpa, hpne⟩ := hp hP
        simp only [SMState.getState, hA, htr, Bool.and_self, hS, hpa,
          jsTruthyTime, Bool.true_and, hP, if_true, bne_iff_ne, ne_eq, hpne,
          hst, not_false_eq_true, Option.getD_some]
        congr 1
        ring
    · simp only [SMState.getState, hA, htr, Bool.and_self, if_true,
        Bool.true_and]
  · intro s n1 n2 st hA hP hS hst hpa hn1
    have hpause : s.pause n1 = { s with isPaused := true, pausedAt := some n1 } := by
      simp [SMState.pause, hA, hP]
    have hres : (s.pause n1).resume n2 =
        { s with isPaused := false, pausedAt := none,
                 totalPausedTime := s.totalPausedTime + (n2 - n1) } := by
      rw [hpause]
      simp [SMState.resume, hA, jsTruthyTime, hn1]
    rw [hres]
    have htr : jsTruthyTime s.startTime = true := by
      rw [hS]; simp [jsTruthyTime, hst]
    simp only [SMState.getState, hA, htr, Bool.and_self, if_true, hS, hpa,
      jsTruthyTime, Bool.true_and, Option.getD_none, Option.getD_some,
      Bool.false_eq_true, if_false]
    congr 1
    ring_nf

lemma jsTruthyTime_true_iff (o : Option Int) :
    jsTruthyTime o = true ↔ ∃ t, o = some t ∧ t ≠ 0 := by
  cases o <;> simp [jsTruthyTime]

lemma invokedIn_append (xs ys : List OutEvent) :
    invokedIn (xs ++ ys) = (invokedIn xs || invokedIn ys) := by
  simp [invokedIn]

lemma refocusIn_append (xs ys : List OutEvent) :
    refocusIn (xs ++ ys) = (refocusIn xs || refocusIn ys) := by
  simp [refocusIn]

/-- The distraction-manager state after an immediate refocus or a hard
reset of the timer, written out once for reuse in branch equations. -/
def DMState.clearedTimer (d : DMState) : DMState :=
  { d with distractionStartTime := none, lastTriggerSource := none,
           checkIntervalActive := false }

/-- The distraction-manager state handleImmediateRefocus leaves. -/
def DMState.refocusCleared (d : DMState) : DMState :=
  { d with distractionStartTime := none, checkIntervalActive := false,
           isWindowDistracted := false, isEyeDistracted := false,
           lastTriggerSource := none }

/-- checkDistractionState, no active session: the timer is reset (with a
refocus broadcast when it was running). -/
lemma cds_inactive (a : AppState) (now : Int) (h : a.sm.isActive = false) :
    checkDistractionState a now =
      ({ a with dm := a.dm.clearedTimer },
       if jsTruthyTime a.dm.distractionStartTime then
         [OutEvent.refocusBroadcast now] else []) := by
  simp [checkDistractionState, h, DMState.resetTimer, DMState.clearedTimer]

/-- checkDistractionState, active session, fused distracted, no timer: the
timer starts. -/
lemma cds_start (a : AppState) (now : Int) (h : a.sm.isActive = true)
    (hf : a.dm.fusedDistracted = true)
    (ht : jsTruthyTime a.dm.distractionStartTime = false) :
    checkDistractionState a now =
      ({ a with dm := { a.dm with distractionStartTime := some now,
                                  checkIntervalActive := true } }, []) := by
  simp [checkDistractionState, h, hf, ht]

/-- checkDistractionState, active session, fused focused, timer running: the
hard reset, with the refocus broadcast of resetTimer plus the explicit one. -/
lemma cds_hard_reset (a : AppState) (now : Int) (h : a.sm.isActive = true)
    (hf : a.dm.fusedDistracted = false)
    (ht : jsTruthyTime a.dm.distractionStartTime = true) :
    checkDistractionState a now =
      ({ a with dm := a.dm.clearedTimer },
       [OutEvent.refocusBroadcast now, OutEvent.refocusBroadcast now]) := by
  simp [checkDistractionState, h, hf, ht, DMState.resetTimer, DMState.clearedTimer]

/-- checkDistractionState, active session, fused distracted, timer already
running: nothing happens. -/
lemma cds_idle_distracted (a : AppState) (now : Int) (h : a.sm.isActive = true)
    (hf : a.dm.fusedDistracted = true)
    (ht : jsTruthyTime a.dm.distractionStartTime = true) :
    checkDistractionState a now = (a, []) := by
  simp [checkDistractionState, h, hf, ht]

/-- checkDistractionState, active session, fused focused, no timer: nothing
happens. -/
lemma cds_idle_focused (a : AppState) (now : Int) (h : a.sm.isActive = true)
    (hf : a.dm.fusedDistracted = false)
    (ht : jsTruthyTime a.dm.distractionStartTime = false) :
    checkDistractionState a now = (a, []) := by
  simp [checkDistractionState, h, hf, ht]

lemma cds_sm (a : AppState) (now : Int) : (checkDistractionState a now).1.sm = a.sm := by
  unfold checkDistractionState
  split
  · rfl
  · split
    · rfl
    · split
      · rfl
      · rfl

lemma cds_flags (a : AppState) (now : Int) :
    (checkDistractionState a now).1.dm.isWindowDistracted = a.dm.isWindowDistracted ∧
    (checkDistractionState a now).1.dm.isEyeDistracted = a.dm.isEyeDistracted := by
  unfold checkDistractionState
  split
  · exact ⟨rfl, rfl⟩
  · split
    · exact ⟨rfl, rfl⟩
    · split
      · exact ⟨rfl, rfl⟩
      · exact ⟨rfl, rfl⟩

lemma cds_fused (a : AppState) (now : Int) :
    (checkDistractionState a now).1.dm.fusedDistracted = a.dm.fusedDistracted := by
  unfold DMState.fusedDistracted
  rw [(cds_flags a now).1, (cds_flags a now).2]

lemma cds_no_invoke (a : AppState) (now : Int) :
    invokedIn (checkDistractionState a now).2 = false := by
  unfold checkDistractionState DMState.resetTimer
  split
  · split <;> rfl
  · split
    · rfl
    · split
      · split <;> rfl
      · rfl

/-- updateEyeState on a focused report while the eye was distracted: the
immediate-refocus path. -/
lemma updateEyeState_refocus_eq (a : AppState) (now : Int)
    (h : a.dm.isEyeDistracted = true) :
    updateEyeState a true now =
      ((checkDistractionState { a with dm := a.dm.refocusCleared } now).1,
       OutEvent.refocusBroadcast now ::
         (checkDistractionState { a with dm := a.dm.refocusCleared } now).2) := by
  simp only [updateEyeState, h, DMState.handleImmediateRefocus, Bool.not_true,
    Bool.and_false, Bool.false_and, Bool.and_true, Bool.true_and, if_true,
    Bool.not_false, DMState.refocusCleared, List.cons_append, List.nil_append]

/-- updateEyeState on a focused report while the eye was already focused. -/
lemma updateEyeState_calm_eq (a : AppState) (now : Int)
    (h : a.dm.isEyeDistracted = false) :
    updateEyeState a true now =
      checkDistractionState { a with dm := { a.dm with isEyeDistracted := false } } now := by
  simp [updateEyeState, h]

/-- updateEyeState on an unfocused report: the eye flag and the trigger
source are set. -/
lemma updateEyeState_distract_eq (a : AppState) (now : Int) :
    updateEyeState a false now =
      checkDistractionState
        { a with dm := { a.dm with isEyeDistracted := true,
                                   lastTriggerSource := some Source.eye_tracker } } now := by
  simp [updateEyeState]

lemma updateWindowState_none_eq (a : AppState) (now : Int) :
    updateWindowState a none now = (a, []) := rfl

/-- updateWindowState on a productive window while the window was
distracting: the immediate-refocus path. -/
lemma updateWindowState_refocus_eq (a : AppState) (w : WindowInfo) (now : Int)
    (hw : a.dm.isWindowDistracted = true) (hp : w.isProductive = true) :
    updateWindowState a (some w) now =
      ((checkDistractionState
          { a with dm := { a.dm with currentWindowInfo := some w }.refocusCleared } now).1,
       OutEvent.refocusBroadcast now ::
         (checkDistractionState
           { a with dm := { a.dm with currentWindowInfo := some w }.refocusCleared } now).2) := by
  simp only [updateWindowState, hw, hp, DMState.handleImmediateRefocus, Bool.not_true,
    Bool.and_false, Bool.false_and, Bool.and_true, Bool.true_and, if_true,
    Bool.not_false, DMState.refocusCleared, List.cons_append, List.nil_append]

/-- updateWindowState on a productive window while the window was already
productive. -/
lemma updateWindowState_calm_eq (a : AppState) (w : WindowInfo) (now : Int)
    (hw : a.dm.isWindowDistracted = false) (hp : w.isProductive = true) :
    updateWindowState a (some w) now =
      checkDistractionState
        { a with dm := { a.dm with currentWindowInfo := some w,
                                   isWindowDistracted := false } } now := by
  simp [updateWindowState, hw, hp]

/-- updateWindowState on an unproductive window: the window flag and the
trigger source are set. -/
lemma updateWindowState_distract_eq (a : AppState) (w : WindowInfo) (now : Int)
    (hp : w.isProductive = false) :
    updateWindowState a (some w) now =
      checkDistractionState
        { a with dm := { a.dm with currentWindowInfo := some w,
                                   isWindowDistracted := true,
                                   lastTriggerSource := some Source.window_tracker } } now := by
  simp [updateWindowState, hp]

lemma checkThreshold_no_timer (a : AppState) (now : Int)
    (h : jsTruthyTime a.dm.distractionStartTime = false) :
    checkThreshold a now = (a, [], CheckResult.exitThis) := by
  simp [checkThreshold, h]

lemma checkThreshold_safety (a : AppState) (now : Int)
    (h : jsTruthyTime a.dm.distractionStartTime = true)
    (hf : a.dm.fusedDistracted = false) :
    checkThreshold a now =
      ({ a with dm := { a.dm with distractionStartTime := none } }, [],
       CheckResult.exitThis) := by
  simp [checkThreshold, h, hf]

lemma checkThreshold_fire (a : AppState) (now : Int)
    (h : jsTruthyTime a.dm.distractionStartTime = true)
    (hf : a.dm.fusedDistracted = true)
    (hth : a.dm.DISTRACTION_THRESHOLD ≤ now - a.dm.distractionStartTime.getD 0) :
    checkThreshold a now =
      ({ a with dm := a.dm.clearedTimer },
       [OutEvent.pipelineInvoked now, OutEvent.refocusBroadcast now],
       CheckResult.handlingDistraction) := by
  simp [checkThreshold, h, hf, hth, DMState.resetTimer, DMState.clearedTimer]

lemma checkThreshold_continue (a : AppState) (now : Int)
    (h : jsTruthyTime a.dm.distractionStartTime = true)
    (hf : a.dm.fusedDistracted = true)
    (hth : ¬ a.dm.DISTRACTION_THRESHOLD ≤ now - a.dm.distractionStartTime.getD 0) :
    checkThreshold a now = (a, [], CheckResult.continuing) := by
  simp [checkThreshold, h, hf, hth]

lemma tickCheck_no_interval (a : AppState) (now : Int)
    (h : a.dm.checkIntervalActive = false) :
    tickCheck a now = (a, []) := by
  simp [tickCheck, h]

lemma jsTruthyTime_some_ne (t : Int) (h : t ≠ 0) : jsTruthyTime (some t) = true := by
  simp [jsTruthyTime, h]

lemma cds_trigger_none (a : AppState) (now : Int)
    (h : a.dm.lastTriggerSource = none) :
    (checkDistractionState a now).1.dm.lastTriggerSource = none := by
  unfold checkDistractionState DMState.resetTimer
  split
  · rfl
  · split
    · exact h
    · split
      · rfl
      · exact h

/-- With the fused state focused, no timer and no live interval,
checkDistractionState leaves the timer and the interval clear. -/
lemma cds_stays_clear (a : AppState) (now : Int)
    (hf : a.dm.fusedDistracted = false)
    (ht : a.dm.distractionStartTime = none)
    (hci : a.dm.checkIntervalActive = false) :
    (checkDistractionState a now).1.dm.distractionStartTime = none ∧
    (checkDistractionState a now).1.dm.checkIntervalActive = false := by
  by_cases hact : a.sm.isActive = true
  · rw [cds_idle_focused a now hact hf (by simp [ht, jsTruthyTime])]
    exact ⟨ht, hci⟩
  · rw [cds_inactive a now (by simpa using hact)]
    exact ⟨rfl, rfl⟩

lemma checkThreshold_sm (a : AppState) (now : Int) :
    (checkThreshold a now).1.sm = a.sm := by
  unfold checkThreshold
  split
  · rfl
  · split
    · rfl
    · split
      · rfl
      · rfl

lemma tickCheck_sm (a : AppState) (now : Int) : (tickCheck a now).1.sm = a.sm := by
  unfold tickCheck
  split
  · rfl
  · split
    · exact checkThreshold_sm a now
    · exact checkThreshold_sm a now

/-- The periodic check never changes the two raw distraction flags. -/
lemma tickCheck_flags (a : AppState) (now : Int) :
    (tickCheck a now).1.dm.isWindowDistracted = a.dm.isWindowDistracted ∧
    (tickCheck a now).1.dm.isEyeDistracted = a.dm.isEyeDistracted := by
  by_cases hCI : a.dm.checkIntervalActive = true
  · by_cases ht : jsTruthyTime a.dm.distractionStartTime = true
    · by_cases hf : a.dm.fusedDistracted = true
      · by_cases hth : a.dm.DISTRACTION_THRESHOLD ≤ now - a.dm.distractionStartTime.getD 0
        · simp [tickCheck, hCI, checkThreshold_fire a now ht hf hth, DMState.clearedTimer]
        · simp [tickCheck, hCI, checkThreshold_continue a now ht hf hth]
      · simp [tickCheck, hCI, checkThreshold_safety a now ht (by simpa using hf)]
    · simp [tickCheck, hCI, checkThreshold_no_timer a now (by simpa using ht)]
  · simp [tickCheck_no_interval a now (by simpa using hCI)]

lemma tickCheck_fused (a : AppState) (now : Int) :
    (tickCheck a now).1.dm.fusedDistracted = a.dm.fusedDistracted := by
  unfold DMState.fusedDistracted
  rw [(tickCheck_flags a now).1, (tickCheck_flags a now).2]

lemma updateEyeState_no_invoke (a : AppState) (f : Bool) (now : Int) :
    invokedIn (updateEyeState a f now).2 = false := by
  cases f with
  | true =>
    by_cases h : a.dm.isEyeDistracted = true
    · rw [updateEyeState_refocus_eq a now h]
      simpa [invokedIn] using cds_no_invoke { a with dm := a.dm.refocusCleared } now
    · rw [updateEyeState_calm_eq a now (by simpa using h)]
      exact cds_no_invoke _ now
  | false =>
    rw [updateEyeState_distract_eq a now]
    exact cds_no_invoke _ now

lemma updateWindowState_no_invoke (a : AppState) (wi : Option WindowInfo) (now : Int) :
    invokedIn (updateWindowState a wi now).2 = false := by
  cases wi with
  | none => rfl
  | some w =>
    by_cases hp : w.isProductive = true
    · by_cases hw : a.dm.isWindowDistracted = true
      · rw [updateWindowState_refocus_eq a w now hw hp]
        simpa [invokedIn] using
          cds_no_invoke { a with dm := { a.dm with currentWindowInfo := some w }.refocusCleared } now
      · rw [updateWindowState_calm_eq a w now (by simpa using hw) hp]
        exact cds_no_invoke _ now
    · rw [updateWindowState_distract_eq a w now (by simpa using hp)]
      exact cds_no_invoke _ now

/-- The alert pipeline is invoked by a step only on a check tick of a live
interval whose timer is set to a truthy start at least the threshold in the
past while the fused state is distracted. -/
lemma step_invoked (a : AppState) (e : Ev)
    (h : invokedIn (step a e).2 = true) :
    ∃ now t0, e = Ev.tick now ∧ a.dm.distractionStartTime = some t0 ∧ t0 ≠ 0 ∧
      a.dm.checkIntervalActive = true ∧ a.dm.fusedDistracted = true ∧
      a.dm.DISTRACTION_THRESHOLD ≤ now - t0 := by
  cases e with
  | windowUpdate wi now =>
    rw [show step a (Ev.windowUpdate wi now) = updateWindowState a wi now from rfl,
      updateWindowState_no_invoke a wi now] at h
    exact absurd h (by simp)
  | eyeUpdate f now =>
    rw [show step a (Ev.eyeUpdate f now) = updateEyeState a f now from rfl,
      updateEyeState_no_invoke a f now] at h
    exact absurd h (by simp)
  | emergency now => exact absurd h (by simp [step, DMState.emergencyStop, invokedIn])
  | tick now =>
    refine ⟨now, ?_⟩
    by_cases hCI : a.dm.checkIntervalActive = true
    · by_cases ht : jsTruthyTime a.dm.distractionStartTime = true
      · obtain ⟨t0, hsome, hne⟩ := (jsTruthyTime_true_iff _).1 ht
        by_cases hf : a.dm.fusedDistracted = true
        · by_cases hth : a.dm.DISTRACTION_THRESHOLD ≤ now - a.dm.distractionStartTime.getD 0
          · refine ⟨t0, rfl, hsome, hne, hCI, hf, ?_⟩
            rwa [hsome, Option.getD_some] at hth
          · rw [show step a (Ev.tick now) = tickCheck a now from rfl] at h
            simp [tickCheck, hCI, checkThreshold_continue a now ht hf hth, invokedIn] at h
        · rw [show step a (Ev.tick now) = tickCheck a now from rfl] at h
          simp [tickCheck, hCI, checkThreshold_safety a now ht (by simpa using hf),
            invokedIn] at h
      · rw [show step a (Ev.tick now) = tickCheck a now from rfl] at h
        simp [tickCheck, hCI, checkThreshold_no_timer a now (by simpa using ht),
          invokedIn] at h
    · rw [show step a (Ev.tick now) = tickCheck a now from rfl,
        tickCheck_no_interval a now (by simpa using hCI)] at h
      exact absurd h (by simp [invokedIn])

/-- C1 (code evaluation at the failing input): no engine step ever touches
the session-manager state, so no FocusEvent is appended on any fused
transition; concretely, an eye signal flipping to distracting during an
active session starts the pending timer (a focused-to-distracted fused
transition) while focusStateHistory is left exactly as it was. -/
theorem fusion_never_records_focus_events :
    (∀ (a : AppState) (e : Ev), (step a e).1.sm = a.sm) ∧
    freshApp.dm.fusedDistracted = false ∧
    (step freshApp (Ev.eyeUpdate false 5000)).1.dm.distractionStartTime = some 5000 ∧
    (step freshApp (Ev.eyeUpdate false 5000)).1.sm.focusStateHistory =
      freshApp.sm.focusStateHistory := by
  refine ⟨?_, by decide, by decide, by decide⟩
  intro a e
  cases e with
  | windowUpdate wi now =>
    show (updateWindowState a wi now).1.sm = a.sm
    cases wi with
    | none => rfl
    | some w =>
      by_cases hp : w.isProductive = true
      · by_cases hw : a.dm.isWindowDistracted = true
        · rw [updateWindowState_refocus_eq a w now hw hp]
          exact cds_sm _ now
        · rw [updateWindowState_calm_eq a w now (by simpa using hw) hp]
          exact cds_sm _ now
      · rw [updateWindowState_distract_eq a w now (by simpa using hp)]
        exact cds_sm _ now
  | eyeUpdate f now =>
    show (updateEyeState a f now).1.sm = a.sm
    cases f with
    | true =>
      by_cases h : a.dm.isEyeDistracted = true
      · rw [updateEyeState_refocus_eq a now h]
        exact cds_sm _ now
      · rw [updateEyeState_calm_eq a now (by simpa using h)]
        exact cds_sm _ now
    | false =>
      rw [updateEyeState_distract_eq a now]
      exact cds_sm _ now
  | tick now => exact tickCheck_sm a now
  | emergency now => rfl

/-- C10: an eye report of focused while the eye was distracted, and a
productive window report while the window was distracting, each clear BOTH
raw distraction flags and null the trigger source regardless of the other
signal, leaving the fused state focused; and the periodic check ticks never
change the flags, so the fused state stays focused until the still-distracted
signal reports again. -/
theorem immediate_refocus_clears_both_signals :
    (∀ (a : AppState) (now : Int), a.dm.isEyeDistracted = true →
       (updateEyeState a true now).1.dm.isWindowDistracted = false ∧
       (updateEyeState a true now).1.dm.isEyeDistracted = false ∧
       (updateEyeState a true now).1.dm.lastTriggerSource = none ∧
       (updateEyeState a true now).1.dm.fusedDistracted = false) ∧
    (∀ (a : AppState) (w : WindowInfo) (now : Int),
       a.dm.isWindowDistracted = true → w.isProductive = true →
       (updateWindowState a (some w) now).1.dm.isWindowDistracted = false ∧
       (updateWindowState a (some w) now).1.dm.isEyeDistracted = false ∧
       (updateWindowState a (some w) now).1.dm.lastTriggerSource = none ∧
       (updateWindowState a (some w) now).1.dm.fusedDistracted = false) ∧
    (∀ (a : AppState) (now : Int),
       (tickCheck a now).1.dm.isWindowDistracted = a.dm.isWindowDistracted ∧
       (tickCheck a now).1.dm.isEyeDistracted = a.dm.isEyeDistracted) := by
  refine ⟨?_, ?_, tickCheck_flags⟩
  · intro a now h
    rw [updateEyeState_refocus_eq a now h]
    refine ⟨(cds_flags _ now).1, (cds_flags _ now).2, cds_trigger_none _ now rfl, ?_⟩
    rw [cds_fused]
    rfl
  · intro a w now hw hp
    rw [updateWindowState_refocus_eq a w now hw hp]
    refine ⟨(cds_flags _ now).1, (cds_flags _ now).2, cds_trigger_none _ now rfl, ?_⟩
    rw [cds_fused]
    rfl

/-- C9: the engine is constructed with DISTRACTION_THRESHOLD 2500 ms and
CHECK_INTERVAL 500 ms; every run of the alert pipeline that completes (does
not end in the top-level catch) leaves DISTRACTION_THRESHOLD at 7000 ms and
CHECK_INTERVAL unchanged; and the pipeline is only ever invoked once the
time since the timer start reaches the current DISTRACTION_THRESHOLD, so
subsequent episodes need 7000 ms of sustained distraction. -/
theorem threshold_mutates_to_7000_after_completed_run :
    DMState.initial.DISTRACTION_THRESHOLD = 2500 ∧
    DMState.initial.CHECK_INTERVAL = 500 ∧
    (∀ (a : AppState) (env : PipelineEnv),
       OutEvent.pipelineError ∉ (handleDistractionThreshold a env).2 →
       (handleDistractionThreshold a env).1.dm.DISTRACTION_THRESHOLD = 7000 ∧
       (handleDistractionThreshold a env).1.dm.CHECK_INTERVAL = a.dm.CHECK_INTERVAL) ∧
    (∀ (a : AppState) (e : Ev), invokedIn (step a e).2 = true →
       ∃ now t0, e = Ev.tick now ∧ a.dm.distractionStartTime = some t0 ∧
         a.dm.DISTRACTION_THRESHOLD ≤ now - t0) := by
  refine ⟨rfl, rfl, ?_, ?_⟩
  · intro a env h
    unfold handleDistractionThreshold at h ⊢
    by_cases hfail :
        (checkForPhone env.rekognitionData && env.pushoverConfigured && !env.pushoverOk) = true
    · rw [if_pos hfail] at h
      exact absurd (by simp : OutEvent.pipelineError ∈
        ((a.dm.resetTimer env.now).2 ++ [OutEvent.pipelineError])) h
    · rw [if_neg hfail]
      exact ⟨rfl, rfl⟩
  · intro a e h
    obtain ⟨now, t0, he, hsome, _, _, _, hth⟩ := step_invoked a e h
    exact ⟨now, t0, he, hsome, hth⟩

/-- C2: while a pending episode is armed (truthy timer start, live check
interval) and the threshold has not yet been reached, any event that leaves
the fused state focused — a signal update flipping it back, or a check tick
observing it already focused — produces no pipeline invocation and fully
clears the pending timer state (start time and interval); and conversely a
pipeline invocation only ever happens on a check tick of an armed episode
whose fused state is distracted and whose elapsed time has reached the
threshold. -/
theorem pending_abort_is_hard_reset :
    (∀ (a : AppState) (e : Ev) (t0 : Int),
       a.dm.distractionStartTime = some t0 → t0 ≠ 0 →
       a.dm.checkIntervalActive = true →
       e.time - t0 < a.dm.DISTRACTION_THRESHOLD →
       ((a.dm.fusedDistracted = true ∧ (step a e).1.dm.fusedDistracted = false) ∨
        (e = Ev.tick e.time ∧ a.dm.fusedDistracted = false)) →
       invokedIn (step a e).2 = false ∧
       (step a e).1.dm.distractionStartTime = none ∧
       (step a e).1.dm.checkIntervalActive = false) ∧
    (∀ (a : AppState) (e : Ev), invokedIn (step a e).2 = true →
       ∃ now t0, e = Ev.tick now ∧ a.dm.distractionStartTime = some t0 ∧ t0 ≠ 0 ∧
         a.dm.checkIntervalActive = true ∧ a.dm.fusedDistracted = true ∧
         a.dm.DISTRACTION_THRESHOLD ≤ now - t0) := by
  constructor
  · intro a e t0 hT ht0 hCI hTime habort
    cases e with
    | emergency now => exact ⟨rfl, rfl, rfl⟩
    | tick now =>
      rcases habort with ⟨hf1, hf2⟩ | ⟨_, hf⟩
      · exfalso
        rw [show (step a (Ev.tick now)).1 = (tickCheck a now).1 from rfl,
          tickCheck_fused, hf1] at hf2
        exact Bool.true_eq_false.mp hf2
      · have ht : jsTruthyTime a.dm.distractionStartTime = true := by
          rw [hT]; exact jsTruthyTime_some_ne t0 ht0
        show invokedIn (tickCheck a now).2 = false ∧
          (tickCheck a now).1.dm.distractionStartTime = none ∧
          (tickCheck a now).1.dm.checkIntervalActive = false
        simp [tickCheck, hCI, checkThreshold_safety a now ht hf, invokedIn]
    | eyeUpdate f now =>
      show invokedIn (updateEyeState a f now).2 = false ∧
        (updateEyeState a f now).1.dm.distractionStartTime = none ∧
        (updateEyeState a f now).1.dm.checkIntervalActive = false
      cases f with
      | false =>
        rcases habort with ⟨_, hf2⟩ | ⟨heq, _⟩
        · exfalso
          rw [show (step a (Ev.eyeUpdate false now)).1 = (updateEyeState a false now).1
              from rfl, updateEyeState_distract_eq, cds_fused] at hf2
          simp [DMState.fusedDistracted] at hf2
        · exact absurd heq (by simp)
      | true =>
        by_cases hEye : a.dm.isEyeDistracted = true
        · rw [updateEyeState_refocus_eq a now hEye]
          have hni := cds_no_invoke { a with dm := a.dm.refocusCleared } now
          have hc := cds_stays_clear { a with dm := a.dm.refocusCleared } now rfl rfl rfl
          exact ⟨by simpa [invokedIn] using hni, hc.1, hc.2⟩
        · rcases habort with ⟨hf1, hf2⟩ | ⟨heq, _⟩
          · exfalso
            have hEyeF : a.dm.isEyeDistracted = false := by simpa using hEye
            rw [show (step a (Ev.eyeUpdate true now)).1 = (updateEyeState a true now).1
                from rfl, updateEyeState_calm_eq a now hEyeF, cds_fused] at hf2
            simp only [DMState.fusedDistracted, Bool.or_false] at hf2
            simp [DMState.fusedDistracted, hf2, hEyeF] at hf1
          · exact absurd heq (by simp)
    | windowUpdate wi now =>
      show invokedIn (updateWindowState a wi now).2 = false ∧
        (updateWindowState a wi now).1.dm.distractionStartTime = none ∧
        (updateWindowState a wi now).1.dm.checkIntervalActive = false
      cases wi with
      | none =>
        rcases habort with ⟨hf1, hf2⟩ | ⟨heq, _⟩
        · exfalso
          rw [show (step a (Ev.windowUpdate none now)).1 = a from rfl, hf1] at hf2
          exact Bool.true_eq_false.mp hf2
        · exact absurd heq (by simp)
      | some w =>
        by_cases hp : w.isProductive = true
        · by_cases hw : a.dm.isWindowDistracted = true
          · rw [updateWindowState_refocus_eq a w now hw hp]
            have hni := cds_no_invoke { a with dm := { a.dm with currentWindowInfo := some w }.refocusCleared } now
            have hc := cds_stays_clear ({ a with dm := { a.dm with currentWindowInfo := some w }.refocusCleared } : AppState) now (by rfl) (by rfl) (by rfl)
            exact ⟨by simpa [invokedIn] using hni, hc.1, hc.2⟩
          · rcases habort with ⟨hf1, hf2⟩ | ⟨heq, _⟩
            · exfalso
              have hwF : a.dm.isWindowDistracted = false := by simpa using hw
              rw [show (step a (Ev.windowUpdate (some w) now)).1 =
                  (updateWindowState a (some w) now).1 from rfl,
                  updateWindowState_calm_eq a w now hwF hp, cds_fused] at hf2
              simp only [DMState.fusedDistracted, Bool.false_or] at hf2
              simp [DMState.fusedDistracted, hf2, hwF] at hf1
            · exact absurd heq (by simp)
        · rcases habort with ⟨_, hf2⟩ | ⟨heq, _⟩
          · exfalso
            have hpF : w.isProductive = false := by simpa using hp
            rw [show (step a (Ev.windowUpdate (some w) now)).1 =
                (updateWindowState a (some w) now).1 from rfl,
                updateWindowState_distract_eq a w now hpF, cds_fused] at hf2
            simp [DMState.fusedDistracted] at hf2
          · exact absurd heq (by simp)
  · exact step_invoked

/-- C2 witness: the armed demo episode (timer started at t=1000,
threshold 2500) aborted by an eye refocus at t=2000 invokes nothing and
fully clears the timer state. -/
theorem pending_abort_is_hard_reset_witness :
    invokedIn (step demoApp (Ev.eyeUpdate true 2000)).2 = false ∧
    (step demoApp (Ev.eyeUpdate true 2000)).1.dm.distractionStartTime = none ∧
    (step demoApp (Ev.eyeUpdate true 2000)).1.dm.checkIntervalActive = false :=
  pending_abort_is_hard_reset.1 demoApp (Ev.eyeUpdate true 2000) 1000 rfl
    (by decide) rfl (by decide) (Or.inl ⟨by decide, by decide⟩)

/-- Where checkDistractionState can broadcast a refocus: only the
session-inactive reset or the hard reset, both of which end with the timer
cleared and either the fused state focused or the session inactive. -/
lemma cds_refocus_analysis (a : AppState) (now : Int)
    (h : refocusIn (checkDistractionState a now).2 = true) :
    (checkDistractionState a now).1.dm.distractionStartTime = none ∧
    ((checkDistractionState a now).1.dm.fusedDistracted = false ∨
     (checkDistractionState a now).1.sm.isActive = false) := by
  by_cases hact : a.sm.isActive = true
  · by_cases hf : a.dm.fusedDistracted = true
    · by_cases ht : jsTruthyTime a.dm.distractionStartTime = true
      · rw [cds_idle_distracted a now hact hf ht] at h
        exact absurd h (by simp [refocusIn])
      · rw [cds_start a now hact hf (by simpa using ht)] at h
        exact absurd h (by simp [refocusIn])
    · by_cases ht : jsTruthyTime a.dm.distractionStartTime = true
      · rw [cds_hard_reset a now hact (by simpa using hf) ht]
        refine ⟨rfl, Or.inl ?_⟩
        rw [show ({ a with dm := a.dm.clearedTimer } : AppState).dm.fusedDistracted =
          a.dm.fusedDistracted from rfl]
        simpa using hf
      · rw [cds_idle_focused a now hact (by simpa using hf) (by simpa using ht)] at h
        exact absurd h (by simp [refocusIn])
  · rw [cds_inactive a now (by simpa using hact)]
    refine ⟨rfl, Or.inr ?_⟩
    simpa using hact

/-- C6 (amended): a refocus broadcast coincides with the pending timer being
torn down, and only ever happens when the step leaves the fused state
focused, OR when the step is the threshold breach that invokes the alert
pipeline (whose initial resetTimer sees the still-set start time and
broadcasts refocus), OR when no session is active. -/
theorem refocus_emission_only_on_timer_teardown :
    ∀ (a : AppState) (e : Ev), refocusIn (step a e).2 = true →
      (step a e).1.dm.distractionStartTime = none ∧
      ((step a e).1.dm.fusedDistracted = false ∨
       invokedIn (step a e).2 = true ∨
       (step a e).1.sm.isActive = false) := by
  intro a e h
  cases e with
  | emergency now => exact ⟨rfl, Or.inl rfl⟩
  | windowUpdate wi now =>
    rw [show step a (Ev.windowUpdate wi now) = updateWindowState a wi now from rfl] at h ⊢
    cases wi with
    | none => exact absurd h (by simp [updateWindowState_none_eq, refocusIn])
    | some w =>
      by_cases hp : w.isProductive = true
      · by_cases hw : a.dm.isWindowDistracted = true
        · rw [updateWindowState_refocus_eq a w now hw hp]
          have hc := cds_stays_clear
            ({ a with dm := { a.dm with currentWindowInfo := some w }.refocusCleared } : AppState)
            now (by rfl) (by rfl) (by rfl)
          refine ⟨hc.1, Or.inl ?_⟩
          rw [cds_fused]
          rfl
        · rw [updateWindowState_calm_eq a w now (by simpa using hw) hp] at h ⊢
          have hr := cds_refocus_analysis _ now h
          exact ⟨hr.1, hr.2.elim Or.inl (fun hx => Or.inr (Or.inr hx))⟩
      · rw [updateWindowState_distract_eq a w now (by simpa using hp)] at h ⊢
        have hr := cds_refocus_analysis _ now h
        exact ⟨hr.1, hr.2.elim Or.inl (fun hx => Or.inr (Or.inr hx))⟩
  | eyeUpdate f now =>
    rw [show step a (Ev.eyeUpdate f now) = updateEyeState a f now from rfl] at h ⊢
    cases f with
    | true =>
      by_cases hEye : a.dm.isEyeDistracted = true
      · rw [updateEyeState_refocus_eq a now hEye]
        have hc := cds_stays_clear ({ a with dm := a.dm.refocusCleared } : AppState)
          now (by rfl) (by rfl) (by rfl)
        refine ⟨hc.1, Or.inl ?_⟩
        rw [cds_fused]
        rfl
      · rw [updateEyeState_calm_eq a now (by simpa using hEye)] at h ⊢
        have hr := cds_refocus_analysis _ now h
        exact ⟨hr.1, hr.2.elim Or.inl (fun hx => Or.inr (Or.inr hx))⟩
    | false =>
      rw [updateEyeState_distract_eq a now] at h ⊢
      have hr := cds_refocus_analysis _ now h
      exact ⟨hr.1, hr.2.elim Or.inl (fun hx => Or.inr (Or.inr hx))⟩
  | tick now =>
    rw [show step a (Ev.tick now) = tickCheck a now from rfl] at h ⊢
    by_cases hCI : a.dm.checkIntervalActive = true
    · by_cases ht : jsTruthyTime a.dm.distractionStartTime = true
      · by_cases hf : a.dm.fusedDistracted = true
        · by_cases hth : a.dm.DISTRACTION_THRESHOLD ≤ now - a.dm.distractionStartTime.getD 0
          · refine ⟨?_, Or.inr (Or.inl ?_)⟩ <;>
              simp [tickCheck, hCI, checkThreshold_fire a now ht hf hth,
                DMState.clearedTimer, invokedIn]
          · rw [tickCheck, if_neg (by simp [hCI]),
              checkThreshold_continue a now ht hf hth] at h
            exact absurd h (by simp [refocusIn])
        · rw [tickCheck, if_neg (by simp [hCI]),
            checkThreshold_safety a now ht (by simpa using hf)] at h
          exact absurd h (by simp [refocusIn])
      · rw [tickCheck, if_neg (by simp [hCI]),
          checkThreshold_no_timer a now (by simpa using ht)] at h
        exact absurd h (by simp [refocusIn])
    · rw [tickCheck_no_interval a now (by simpa using hCI)] at h
      exact absurd h (by simp [refocusIn])

/-- C6 witness: the immediate eye refocus on the armed demo episode
broadcasts a refocus, and indeed tears the timer down with the fused state
focused. -/
theorem refocus_emission_only_on_timer_teardown_witness :
    (step demoApp (Ev.eyeUpdate true 2000)).1.dm.distractionStartTime = none ∧
    ((step demoApp (Ev.eyeUpdate true 2000)).1.dm.fusedDistracted = false ∨
     invokedIn (step demoApp (Ev.eyeUpdate true 2000)).2 = true ∨
     (step demoApp (Ev.eyeUpdate true 2000)).1.sm.isActive = false) :=
  refocus_emission_only_on_timer_teardown demoApp (Ev.eyeUpdate true 2000) (by decide)

/-- C6 counterexample: the check tick that breaches the threshold (demo
episode armed at t=1000, threshold 2500, tick at t=3500) both invokes the
alert pipeline and broadcasts a refocus in the same step, so userRefocused
IS emitted as part of a threshold breach. -/
theorem refocus_emitted_on_breach_cex :
    invokedIn (step demoApp (Ev.tick 3500)).2 = true ∧
    refocusIn (step demoApp (Ev.tick 3500)).2 = true := by decide

/-- C4 counterexample: a successful pipeline run of the eye-triggered demo
episode — lastTriggerSource = eye_tracker at invocation — broadcasts exactly
one AlertPackage, and both its triggerSource and its context trigger source
are null, because the pipeline begins by resetting the timer, which clears
lastTriggerSource before the package is assembled. -/
theorem broadcast_triggerSource_nonnull_cex :
    demoApp.dm.lastTriggerSource = some Source.eye_tracker ∧
    (broadcastPackages (handleDistractionThreshold demoApp demoEnvOk).2).map
      AlertPackage.triggerSource = [none] ∧
    (broadcastPackages (handleDistractionThreshold demoApp demoEnvOk).2).map
      (fun p => p.context.trigger.source) = [none] := by decide

/-- C4 (amended): every AlertPackage the pipeline ever broadcasts carries a
null triggerSource and a null context trigger source (signal updates landing
during the pipeline's asynchronous steps aside, which this run function does
not model): handleDistractionThreshold calls resetTimer first, and resetTimer
nulls lastTriggerSource before gatherContext and the package read it. -/
theorem broadcast_triggerSource_is_null :
    ∀ (a : AppState) (env : PipelineEnv) (p : AlertPackage),
      OutEvent.alertBroadcast p ∈ (handleDistractionThreshold a env).2 →
      p.triggerSource = none ∧ p.context.trigger.source = none := by
  intro a env p hmem
  unfold handleDistractionThreshold at hmem
  by_cases hfail :
      (checkForPhone env.rekognitionData && env.pushoverConfigured && !env.pushoverOk) = true
  · rw [if_pos hfail] at hmem
    exfalso
    rcases List.mem_append.mp hmem with h | h
    · revert h
      unfold DMState.resetTimer
      split <;> simp
    · simp at h
  · rw [if_neg hfail] at hmem
    simp only [List.mem_append, List.mem_singleton] at hmem
    rcases hmem with ((((h | h) | h) | h) | h)
    · exfalso
      revert h
      unfold DMState.resetTimer
      split <;> simp
    · exfalso
      revert h
      split <;> simp
    · obtain rfl : p = _ := by simpa using h
      exact ⟨rfl, rfl⟩
    · exfalso
      revert h
      split <;> simp
    · exact absurd h (by simp)

/-- C4 witness: the package of the demo run satisfies the null-trigger
conclusion. -/
theorem broadcast_triggerSource_is_null_witness :
    demoPkg.triggerSource = none ∧ demoPkg.context.trigger.source = none :=
  broadcast_triggerSource_is_null demoApp demoEnvOk demoPkg (by decide)

/-- As wired in src/, the scene slot has no writer, so every real pipeline
run sees an absent payload: checkForPhone is false, the push step and the
top-level catch are unreachable, and the run always broadcasts its
AlertPackage. The push-failure branch below is exercised only under the
spec-modelled scene payload. -/
lemma pipeline_without_scene_always_broadcasts (a : AppState) (env : PipelineEnv)
    (h : env.rekognitionData = none) :
    OutEvent.pipelineError ∉ (handleDistractionThreshold a env).2 ∧
    ∃ p, OutEvent.alertBroadcast p ∈ (handleDistractionThreshold a env).2 := by
  have hp : checkForPhone env.rekognitionData = false := by rw [h]; rfl
  unfold handleDistractionThreshold
  rw [if_neg (by simp [hp])]
  constructor
  · intro hmem
    rcases List.mem_append.mp hmem with h1 | h1
    · rcases List.mem_append.mp h1 with h2 | h2
      · rcases List.mem_append.mp h2 with h3 | h3
        · rcases List.mem_append.mp h3 with h4 | h4
          · revert h4
            unfold DMState.resetTimer
            split <;> simp
          · revert h4
            simp [hp]
        · simp at h3
      · revert h2
        split <;> simp
    · simp at h1
  · exact ⟨_, List.mem_append.mpr (Or.inl (List.mem_append.mpr (Or.inl
      (List.mem_append.mpr (Or.inr (List.mem_singleton.mpr rfl))))))⟩

/-- C5 counterexample, under the spec-modelled scene payload (the slot
writer is missing from src/; RekognitionData models it from the spec): with
a phone flagged in the scene, Pushover configured and its sendNotification
failing, the pipeline run ends in the top-level catch: the error is logged,
and NO AlertPackage broadcast occurs, contradicting the claim that a push
failure never propagates. The deciding catch structure is src/ code — the
push await has no local try/catch. -/
theorem push_failure_blocks_broadcast_cex :
    checkForPhone demoEnvPushFail.rekognitionData = true ∧
    demoEnvPushFail.pushoverConfigured = true ∧
    demoEnvPushFail.pushoverOk = false ∧
    broadcastPackages (handleDistractionThreshold demoApp demoEnvPushFail).2 = [] ∧
    OutEvent.pipelineError ∈ (handleDistractionThreshold demoApp demoEnvPushFail).2 := by
  decide

/-- C5 (amended, under the spec-modelled scene payload): whenever the push
step runs and fails — which requires the slot payload to flag a phone,
possible only under the spec-modelled transport since the slot has no
writer in src/ — the exception propagates to the pipeline's top-level
catch: the run logs the error, broadcasts no AlertPackage, and leaves
DISTRACTION_THRESHOLD unchanged; the episode ends without the alert. As
wired in src/ the step never runs at all
(pipeline_without_scene_always_broadcasts). -/
theorem push_failure_propagates_no_broadcast :
    ∀ (a : AppState) (env : PipelineEnv),
      checkForPhone env.rekognitionData = true →
      env.pushoverConfigured = true →
      env.pushoverOk = false →
      broadcastPackages (handleDistractionThreshold a env).2 = [] ∧
      OutEvent.pipelineError ∈ (handleDistractionThreshold a env).2 ∧
      (handleDistractionThreshold a env).1.dm.DISTRACTION_THRESHOLD =
        a.dm.DISTRACTION_THRESHOLD := by
  intro a env h1 h2 h3
  unfold handleDistractionThreshold
  rw [if_pos (by simp [h1, h2, h3])]
  refine ⟨?_, by simp, rfl⟩
  show broadcastPackages ((a.dm.resetTimer env.now).2 ++ [OutEvent.pipelineError]) = []
  unfold DMState.resetTimer broadcastPackages
  split <;> rfl

/-- C5 witness: the failing-push demo run exhibits the propagation. -/
theorem push_failure_propagates_no_broadcast_witness :
    broadcastPackages (handleDistractionThreshold demoApp demoEnvPushFail).2 = [] ∧
    OutEvent.pipelineError ∈ (handleDistractionThreshold demoApp demoEnvPushFail).2 ∧
    (handleDistractionThreshold demoApp demoEnvPushFail).1.dm.DISTRACTION_THRESHOLD =
      demoApp.dm.DISTRACTION_THRESHOLD :=
  push_failure_propagates_no_broadcast demoApp demoEnvPushFail (by decide)
    (by decide) (by decide)

/-- A state where BOTH signals are distracted during the armed demo
episode. -/
def bothApp : AppState :=
  { demoApp with dm := { demoApp.dm with isWindowDistracted := true } }

/-- C3 witness: the demo session (started at t=1000) at t=5000, and a
pause at t=5000 resumed at t=9000, instantiate both parts. -/
theorem elapsed_formula_and_pause_resume_roundtrip_witness :
    ((demoSM.getState 5000).elapsedTime =
       Int.fdiv (5000 - 1000 - demoSM.totalPausedTime -
         (if demoSM.isPaused = true then 5000 - demoSM.pausedAt.getD 0 else 0)) 1000 ∧
     (demoSM.getState 5000).remainingTime =
       max 0 (demoSM.duration - (demoSM.getState 5000).elapsedTime)) ∧
    (((demoSM.pause 5000).resume 9000).getState 9000).elapsedTime =
      (demoSM.getState 5000).elapsedTime :=
  ⟨elapsed_formula_and_pause_resume_roundtrip.1 demoSM 5000 1000 rfl rfl (by decide)
     (fun _ => rfl) (fun h => absurd h (by decide)),
   elapsed_formula_and_pause_resume_roundtrip.2 demoSM 5000 9000 1000 rfl rfl rfl
     (by decide) rfl (by decide)⟩

/-- C9 witness: the successful demo run leaves the threshold at 7000 ms and
the check interval untouched. -/
theorem threshold_mutates_to_7000_after_completed_run_witness :
    (handleDistractionThreshold demoApp demoEnvOk).1.dm.DISTRACTION_THRESHOLD = 7000 ∧
    (handleDistractionThreshold demoApp demoEnvOk).1.dm.CHECK_INTERVAL =
      demoApp.dm.CHECK_INTERVAL :=
  threshold_mutates_to_7000_after_completed_run.2.2.1 demoApp demoEnvOk (by decide)

/-- C10 witness: with BOTH signals distracted, a single eye refocus clears
both flags, the trigger source, and the fused state. -/
theorem immediate_refocus_clears_both_signals_witness :
    (updateEyeState bothApp true 2000).1.dm.isWindowDistracted = false ∧
    (updateEyeState bothApp true 2000).1.dm.isEyeDistracted = false ∧
    (updateEyeState bothApp true 2000).1.dm.lastTriggerSource = none ∧
    (updateEyeState bothApp true 2000).1.dm.fusedDistracted = false :=
  immediate_refocus_clears_both_signals.1 bothApp 2000 (by decide)

end Dubflow

